import Mathlib

/-!
Verification development for the joplin-mcp-server repository: a shallow
embedding in Lean 4 of the error taxonomy, the backend-gateway error
translation, the notebook tree construction, the search-query builder,
the limit validation, the configuration loader, the partial-update logic
and the tool-host wrapper, together with theorems settling the spec
claims about them.

Conventions of the embedding:
- Python `str` is Lean `String`; Python `None` is `Option.none`;
  Python truthiness of an optional string is `strTruthy`.
- Python `datetime` values are modelled by `PyDateTime`: a raw
  millisecond timestamp is carried as `Option Int` and normalized by
  `ensure_datetime` exactly as `_ensure_datetime` in the source does
  (absent value becomes "now", present value is converted from ms).
- Python exceptions are values: `MCPError` is the `JoplinMCPError`
  hierarchy (identified by its `category` tag, as in errors.py), and
  `PyError` adds the builtin `ValueError` raised by config.py.
- A function that can raise returns `Except`.
- The remote joppy client is a parameter: a record of functions over an
  abstract backend-state type, so that the gateway's call sequences are
  visible in the result.
-/

/-- Python truthiness of an optional string: `None` and the empty string
are falsy, every other string is truthy. -/
def strTruthy : Option String → Bool
  | none => false
  | some s => !s.isEmpty

/-- Occurrence of `pat` as a contiguous run inside a character list:
either a prefix here, or an occurrence further right. -/
def listIsInfix (pat : List Char) : List Char → Bool
  | [] => pat.isEmpty
  | c :: rest => pat.isPrefixOf (c :: rest) || listIsInfix pat rest

/-- Python substring test `pat in s`, as used by `_handle_error` on the
lowercased exception message. -/
def strContains (s pat : String) : Bool :=
  listIsInfix pat.data s.data

/-- Python `s.lower()` character by character (exception messages are
ASCII, where this agrees with Python). -/
def pyLower (s : String) : String :=
  String.mk (s.data.map Char.toLower)

/-- An exception of the taxonomy defined in errors.py: the class is
identified by its `category` tag ("auth_error", "connection_error",
"not_found", "validation_error", "joplin_error"), and it carries a
user-facing message plus an optional raw detail string. -/
structure MCPError where
  category : String
  message : String
  detail : Option String
deriving DecidableEq, Repr

/-- The `ValidationError(message)` constructor: category tag
"validation_error", no detail. -/
def validationError (message : String) : MCPError :=
  ⟨"validation_error", message, none⟩

/-- The category tags of the five `JoplinMCPError` subclasses in
errors.py. -/
def taxonomyCategories : List String :=
  ["auth_error", "connection_error", "not_found", "validation_error", "joplin_error"]

/-- A Python exception as it crosses layer boundaries: either a taxonomy
error (`JoplinMCPError` subclass) or the builtin `ValueError` raised by
config.py. -/
inductive PyError where
  | valueError (message : String)
  | mcp (e : MCPError)
deriving DecidableEq, Repr

/-- Whether a raised exception belongs to the system's error taxonomy
(is an instance of `JoplinMCPError`). -/
def PyError.isTaxonomy : PyError → Bool
  | .valueError _ => false
  | .mcp _ => true

namespace JoplinClient

/-- The error-translation step `JoplinClient._handle_error` of client.py.
`isConnException` is whether the caught exception is a
`requests.exceptions.ConnectionError`; `excMsg` is `str(e)`; `context`
is the resource-context string the operation passed. The source
lowercases the message, then classifies by the first matching rule:
connection, then 401/403/unauthorized, then 404/not-found, else generic
API error, raising the corresponding taxonomy error. -/
def handle_error (host : String) (port : Nat) (isConnException : Bool)
    (excMsg : String) (context : String) : MCPError :=
  let error_str := pyLower excMsg
  let detail := excMsg
  if isConnException || strContains error_str "connection refused" then
    ⟨"connection_error",
      "Cannot connect to Joplin at " ++ host ++ ":" ++ toString port ++
        ". Is Joplin running with the Web Clipper service enabled?",
      some detail⟩
  else if strContains error_str "401" || strContains error_str "403" ||
      strContains error_str "unauthorized" then
    ⟨"auth_error", "Authentication failed. Check your JOPLIN_API_TOKEN.",
      some detail⟩
  else if strContains error_str "404" || strContains error_str "not found" then
    ⟨"not_found",
      if context.isEmpty then "Resource not found"
      else "Resource not found: " ++ context,
      some detail⟩
  else
    ⟨"joplin_error",
      if context.isEmpty then "Joplin API error"
      else "Joplin API error: " ++ context,
      some detail⟩

end JoplinClient

/-!
Notebook tree construction (tools/notebooks.py, `get_notebook_tree`).
The function fetches up to 100 notebooks with id/title/parent_id, builds
an id-to-record map, then in one pass over the flat list builds a
parent-to-children map and the list of root ids, and finally builds the
tree by recursive descent from each root. The fetched flat list is the
input of the model.
-/

/-- A raw notebook record as fetched for the tree: id, title, parent_id
(`none` models an absent field; `some ""` an empty string). -/
structure FlatNotebook where
  id : String
  title : String
  parent_id : Option String
deriving DecidableEq, Repr

/-- A node of the notebook tree (models.NotebookTreeNode). -/
inductive NotebookTreeNode where
  | mk (id : String) (title : String) (children : List NotebookTreeNode)
deriving Repr

/-- Identifier of a tree node. -/
def NotebookTreeNode.id : NotebookTreeNode → String
  | .mk i _ _ => i

/-- Title of a tree node. -/
def NotebookTreeNode.title : NotebookTreeNode → String
  | .mk _ t _ => t

/-- Children of a tree node. -/
def NotebookTreeNode.children : NotebookTreeNode → List NotebookTreeNode
  | .mk _ _ c => c

/-- The Python dict `notebook_map = {nb["id"]: nb for nb in notebooks_data}`:
for a duplicated id the later entry wins, so lookup finds the last
record with the given id. -/
def notebookMap (nbs : List FlatNotebook) (nodeId : String) : Option FlatNotebook :=
  nbs.reverse.find? (fun nb => nb.id == nodeId)

/-- Membership test `parent_id in notebook_map`: the parent id occurs
among the ids of the fetched notebooks. -/
def idPresent (nbs : List FlatNotebook) (p : String) : Bool :=
  (nbs.map FlatNotebook.id).contains p

/-- The loop condition `if parent_id and parent_id in notebook_map`: the
notebook is recorded as a child (of a truthy parent id present in the
fetched set); otherwise it is appended to the roots. -/
def isChild (all : List FlatNotebook) (nb : FlatNotebook) : Bool :=
  match nb.parent_id with
  | some p => !p.isEmpty && idPresent all p
  | none => false

/-- The dict update `children_map.setdefault-and-append`: append the
child id to the entry of `p`, creating the entry at the end on first
occurrence of `p` (Python dict insertion order). -/
def addChild : List (String × List String) → String → String → List (String × List String)
  | [], p, c => [(p, [c])]
  | e :: rest, p, c =>
    if e.1 == p then (e.1, e.2 ++ [c]) :: rest else e :: addChild rest p c

/-- Lookup `children_map.get(node_id, [])` (first matching entry;
`addChild` keeps the keys distinct, so this is the dict lookup). -/
def lookupChildren (m : List (String × List String)) (p : String) : List String :=
  match m with
  | [] => []
  | e :: rest => if e.1 == p then e.2 else lookupChildren rest p

/-- The single pass of `get_notebook_tree` over the flat list, carrying
the children map and the root-id list: a notebook with a truthy
parent_id present in the fetched set is appended under that parent,
every other notebook is appended to the roots. -/
def buildMaps (all : List FlatNotebook) :
    List FlatNotebook → List (String × List String) × List String →
    List (String × List String) × List String
  | [], acc => acc
  | nb :: rest, acc =>
    match nb.parent_id with
    | some p =>
      if !p.isEmpty && idPresent all p then
        buildMaps all rest (addChild acc.1 p nb.id, acc.2)
      else
        buildMaps all rest (acc.1, acc.2 ++ [nb.id])
    | none => buildMaps all rest (acc.1, acc.2 ++ [nb.id])

/-- The recursive descent `build_tree(node_id)`. The Python recursion is
unguarded; here it carries fuel, set by the caller to the length of the
flat list, which bounds the depth of every chain reachable from a root
when ids are distinct. At fuel 0 (unreachable in those runs) a leaf is
returned. -/
def buildTree (nbs : List FlatNotebook) (cm : List (String × List String)) :
    Nat → String → NotebookTreeNode
  | 0, nodeId => .mk nodeId "" []
  | fuel + 1, nodeId =>
    let title := ((notebookMap nbs nodeId).map FlatNotebook.title).getD ""
    .mk nodeId title ((lookupChildren cm nodeId).map (buildTree nbs cm fuel))

/-- `get_notebook_tree` on an already-fetched flat list: build the two
maps in one pass, then build a tree from each root id in order. -/
def get_notebook_tree (nbs : List FlatNotebook) : List NotebookTreeNode :=
  let maps := buildMaps nbs nbs ([], [])
  maps.2.map (buildTree nbs maps.1 nbs.length)

/-- Root ids computed by the pass (projection used in statements). -/
def rootIdsOf (nbs : List FlatNotebook) : List String :=
  (buildMaps nbs nbs ([], [])).2

/-- Children recorded under a given parent id by the pass (projection
used in statements). -/
def childrenOf (nbs : List FlatNotebook) (p : String) : List String :=
  lookupChildren (buildMaps nbs nbs ([], [])).1 p

/-!
Notes tool layer (tools/notes.py): search-query building, limit
validation, snippet truncation, note assembly, partial update.
-/

/-- A Python datetime as produced by `_ensure_datetime`: either the
conversion of a millisecond timestamp, or the current time (used when
the raw value is absent). -/
inductive PyDateTime where
  | fromTimestampMs (ms : Int)
  | now
deriving DecidableEq, Repr

/-- The helper `_ensure_datetime`: an absent raw value becomes the
current time, a present millisecond timestamp is converted. -/
def ensure_datetime : Option Int → PyDateTime
  | none => .now
  | some ms => .fromTimestampMs ms

/-- A raw note record as returned by the gateway (a joppy dataclass
turned into a dict; `none` models a dropped/absent field). -/
structure RawNote where
  id : String
  title : String
  parent_id : String
  body : Option String
  created_time : Option Int
  updated_time : Option Int
  is_todo : Option Int
  todo_completed : Option Int
deriving DecidableEq, Repr

/-- Python truthiness of an optional integer field (`is_todo`,
`todo_completed`): absent and 0 are falsy. -/
def intTruthy : Option Int → Bool
  | none => false
  | some n => n != 0

/-- A search-result snippet (models.NoteSnippet). -/
structure NoteSnippet where
  id : String
  title : String
  parent_id : String
  created_time : PyDateTime
  updated_time : PyDateTime
  is_todo : Bool
  todo_completed : Bool
  snippet : String
deriving DecidableEq, Repr

/-- The loop body of `search_notes` that turns one raw note into a
`NoteSnippet`: the body defaults to the empty string, is sliced to its
first 500 characters when longer than 500 (`body[:500]`), and the todo
flags are coerced by truthiness. -/
def note_to_snippet (note : RawNote) : NoteSnippet :=
  let body := note.body.getD ""
  let snippet := if body.length > 500 then String.mk (body.data.take 500) else body
  ⟨note.id, note.title, note.parent_id,
    ensure_datetime note.created_time, ensure_datetime note.updated_time,
    intTruthy note.is_todo, intTruthy note.todo_completed, snippet⟩

/-- The query builder `_build_search_query`: parts are appended in the
fixed source order (free text, notebook filter, tag filter, todo type,
completion flag), each only when its argument is present (string
truthiness for the string arguments, a non-None check for the boolean
ones); the parts are joined with spaces, and an empty list yields the
wildcard. -/
def build_search_query (query notebook_id tag_id : Option String)
    (is_todo is_completed : Option Bool) : String :=
  let parts : List String := []
  let parts := if strTruthy query then parts ++ [query.getD ""] else parts
  let parts := if strTruthy notebook_id then
    parts ++ ["notebook:" ++ notebook_id.getD ""] else parts
  let parts := if strTruthy tag_id then parts ++ ["tag:" ++ tag_id.getD ""] else parts
  let parts := match is_todo with
    | some true => parts ++ ["type:todo"]
    | some false => parts ++ ["type:note"]
    | none => parts
  let parts := match is_completed with
    | some true => parts ++ ["iscompleted:1"]
    | some false => parts ++ ["iscompleted:0"]
    | none => parts
  if parts.isEmpty then "*" else String.intercalate " " parts

/-- The fixed field set `search_notes` requests from the backend. -/
def searchNotesFields : String :=
  "id,title,parent_id,created_time,updated_time,is_todo,todo_completed,body"

/-- A search call issued to the gateway: the assembled query string, the
(validated, clamped) limit and the requested field set. -/
structure SearchCall where
  query : String
  limit : Int
  fields : String
deriving DecidableEq, Repr

/-- `search_notes` of tools/notes.py, with the gateway modelled as a
function from the issued call to the raw result list. A limit below 1
raises `ValidationError` before any backend call; a limit above 100 is
clamped to 100; a truthy raw_query is used verbatim, otherwise the
query is assembled from the structured parameters; the raw results are
mapped to snippets. The issued call is returned with the snippets. -/
def search_notes (backend : SearchCall → List RawNote)
    (query notebook_id tag_id : Option String)
    (is_todo is_completed : Option Bool) (limit : Int)
    (raw_query : Option String) :
    Except MCPError (SearchCall × List NoteSnippet) :=
  if limit < 1 then
    .error (validationError "limit must be at least 1")
  else
    let limit := if limit > 100 then (100 : Int) else limit
    let search_query :=
      if strTruthy raw_query then raw_query.getD ""
      else build_search_query query notebook_id tag_id is_todo is_completed
    let call : SearchCall := ⟨search_query, limit, searchNotesFields⟩
    .ok (call, (backend call).map note_to_snippet)

/-- Limit of the call issued by a finished `search_notes` run, `none`
when the run raised instead of calling the backend. -/
def searchSentLimit (r : Except MCPError (SearchCall × List NoteSnippet)) : Option Int :=
  match r with
  | .ok (call, _) => some call.limit
  | .error _ => none

/-- Query string of the call issued by a finished `search_notes` run,
`none` when the run raised instead of calling the backend. -/
def searchSentQuery (r : Except MCPError (SearchCall × List NoteSnippet)) : Option String :=
  match r with
  | .ok (call, _) => some call.query
  | .error _ => none

/-!
List operations of the notebooks and tags tool layers
(tools/notebooks.py `list_notebooks`, tools/tags.py `list_tags`), with
the shared limit validation and clamping.
-/

/-- A raw notebook record returned by the gateway. -/
structure RawNotebook where
  id : String
  title : String
  parent_id : Option String
  created_time : Option Int
  updated_time : Option Int
deriving DecidableEq, Repr

/-- The Notebook domain model (models.Notebook): the raw parent id is
normalized by truthiness (`data.get("parent_id") or None`), timestamps
by `_ensure_datetime`. -/
structure Notebook where
  id : String
  title : String
  parent_id : Option String
  created_time : PyDateTime
  updated_time : PyDateTime
deriving DecidableEq, Repr

/-- The converter `_notebook_from_dict` of tools/notebooks.py. -/
def notebook_from_dict (data : RawNotebook) : Notebook :=
  ⟨data.id, data.title,
    (if strTruthy data.parent_id then data.parent_id else none),
    ensure_datetime data.created_time, ensure_datetime data.updated_time⟩

/-- A raw tag record returned by the gateway. -/
structure RawTag where
  id : String
  title : String
  created_time : Option Int
  updated_time : Option Int
deriving DecidableEq, Repr

/-- The Tag domain model (models.Tag). -/
structure Tag where
  id : String
  title : String
  created_time : PyDateTime
  updated_time : PyDateTime
deriving DecidableEq, Repr

/-- The converter `_tag_from_dict` of tools/tags.py. -/
def tag_from_dict (data : RawTag) : Tag :=
  ⟨data.id, data.title, ensure_datetime data.created_time,
    ensure_datetime data.updated_time⟩

/-- A list call issued to the gateway: field set and (validated,
clamped) limit. -/
structure ListCall where
  fields : String
  limit : Int
deriving DecidableEq, Repr

/-- `list_notebooks` of tools/notebooks.py: validates the limit (below 1
raises `ValidationError` before any backend call, above 100 is clamped
to 100), fetches the flat list with a fixed field set and converts each
record. The issued call is returned with the result. -/
def list_notebooks (backend : ListCall → List RawNotebook) (limit : Int) :
    Except MCPError (ListCall × List Notebook) :=
  if limit < 1 then
    .error (validationError "limit must be at least 1")
  else
    let limit := if limit > 100 then (100 : Int) else limit
    let call : ListCall := ⟨"id,title,parent_id,created_time,updated_time", limit⟩
    .ok (call, (backend call).map notebook_from_dict)

/-- `list_tags` of tools/tags.py: same limit validation and clamping as
`list_notebooks`, with the tag field set and converter. -/
def list_tags (backend : ListCall → List RawTag) (limit : Int) :
    Except MCPError (ListCall × List Tag) :=
  if limit < 1 then
    .error (validationError "limit must be at least 1")
  else
    let limit := if limit > 100 then (100 : Int) else limit
    let call : ListCall := ⟨"id,title,created_time,updated_time", limit⟩
    .ok (call, (backend call).map tag_from_dict)

/-- Limit of the call issued by a finished list run, `none` when the
run raised instead of calling the backend. -/
def listSentLimit {α : Type} (r : Except MCPError (ListCall × α)) : Option Int :=
  match r with
  | .ok (call, _) => some call.limit
  | .error _ => none

/-!
Configuration loading (config.py). The process environment is modelled
by the three relevant variables; Python `int()` on the port string is
modelled for decimal literals with optional surrounding whitespace and
sign. `get_config` caches its first successful result in a module-level
variable, modelled by threading the cache explicitly.
-/

/-- The three environment variables config.py reads (`none` models an
unset variable). -/
structure Env where
  joplin_api_token : Option String
  joplin_host : Option String
  joplin_port : Option String
deriving Repr

/-- The Config dataclass of config.py. -/
structure Config where
  api_token : String
  host : String
  port : Int
deriving DecidableEq, Repr

/-- Python `int(s)` on a decimal string: optional surrounding
whitespace, optional single sign, then a nonempty run of digits;
anything else raises (returns `none`). Underscore digit grouping is not
modelled. -/
def pyParseInt (s : String) : Option Int :=
  let t := ((s.data.dropWhile Char.isWhitespace).reverse.dropWhile
    Char.isWhitespace).reverse
  let core : Bool × List Char := match t with
    | '-' :: rest => (true, rest)
    | '+' :: rest => (false, rest)
    | rest => (false, rest)
  let neg := core.1
  let ds := core.2
  if ds.isEmpty || !ds.all Char.isDigit then none
  else
    let n : Nat := ds.foldl (fun acc c => acc * 10 + (c.toNat - '0'.toNat)) 0
    some (if neg then -(n : Int) else (n : Int))

/-- `get_config` of config.py, with the module-level cache passed in
explicitly. A cached config is returned as is. Otherwise: a missing or
empty token raises the builtin `ValueError`; the host defaults to
"localhost" and the port string to "41184"; a port string that does not
parse as an integer raises the builtin `ValueError`; on success the
assembled `Config` is returned (and becomes the new cache value). -/
def get_config (cached : Option Config) (env : Env) : Except PyError Config :=
  match cached with
  | some c => .ok c
  | none =>
    if !strTruthy env.joplin_api_token then
      .error (.valueError
        ("JOPLIN_API_TOKEN environment variable is required. " ++
          "Get your token from Joplin: Tools > Options > Web Clipper"))
    else
      let host := env.joplin_host.getD "localhost"
      let port_str := env.joplin_port.getD "41184"
      match pyParseInt port_str with
      | none => .error (.valueError
          ("JOPLIN_PORT must be a valid integer, got: " ++ port_str))
      | some port => .ok ⟨env.joplin_api_token.getD "", host, port⟩

/-!
Note retrieval and partial update (tools/notes.py `get_note` and
`update_note`). The gateway is modelled as a record of functions over an
abstract backend-state type, so that which calls an operation issues,
and in which state, is visible in the result.
-/

/-- A value of a keyword argument sent to the backend (strings for
title/body/parent_id, the integers 1/0 for the boolean encodings). -/
inductive FieldValue where
  | str (s : String)
  | int (n : Int)
deriving DecidableEq, Repr

/-- A lightweight tag reference embedded in a Note (models.TagRef). -/
structure TagRef where
  id : String
  title : String
deriving DecidableEq, Repr

/-- The full Note domain model (models.Note). -/
structure Note where
  id : String
  title : String
  body : String
  parent_id : String
  created_time : PyDateTime
  updated_time : PyDateTime
  is_todo : Bool
  todo_completed : Bool
  tags : List TagRef
deriving DecidableEq, Repr

/-- The gateway operations `get_note` / `get_note_tags` / `update_note`
of client.py as seen by the notes tool layer, over an abstract
backend-state type: `modify_note` returns the state after the backend
applied the partial update. -/
structure NoteBackend (σ : Type) where
  fetch_note : σ → String → RawNote
  fetch_note_tags : σ → String → List RawTag
  modify_note : σ → String → List (String × FieldValue) → σ

/-- `get_note` of tools/notes.py: fetch the note record, separately
fetch its tag list, and assemble the Note (body defaulting to the empty
string, todo flags by truthiness, tags as lightweight references). -/
def tool_get_note {σ : Type} (B : NoteBackend σ) (st : σ) (note_id : String) : Note :=
  let note := B.fetch_note st note_id
  let tags := (B.fetch_note_tags st note_id).map (fun t => TagRef.mk t.id t.title)
  ⟨note.id, note.title, note.body.getD "", note.parent_id,
    ensure_datetime note.created_time, ensure_datetime note.updated_time,
    intTruthy note.is_todo, intTruthy note.todo_completed, tags⟩

/-- The optional arguments of `update_note` (`none` means "do not
change", exactly the Python `is not None` checks: `some ""` is kept). -/
structure UpdateNoteArgs where
  title : Option String
  body : Option String
  notebook_id : Option String
  is_todo : Option Bool
  todo_completed : Option Bool
deriving DecidableEq, Repr

/-- The all-None argument record (every field omitted). -/
def UpdateNoteArgs.empty : UpdateNoteArgs := ⟨none, none, none, none, none⟩

/-- The kwargs dict built by `update_note`: one entry per explicitly
provided (non-None) field, in source order, with the booleans encoded
as the integers 1/0 and notebook_id sent under the key "parent_id". -/
def build_update_kwargs (a : UpdateNoteArgs) : List (String × FieldValue) :=
  let kwargs : List (String × FieldValue) := []
  let kwargs := match a.title with
    | some t => kwargs ++ [("title", .str t)]
    | none => kwargs
  let kwargs := match a.body with
    | some b => kwargs ++ [("body", .str b)]
    | none => kwargs
  let kwargs := match a.notebook_id with
    | some nb => kwargs ++ [("parent_id", .str nb)]
    | none => kwargs
  let kwargs := match a.is_todo with
    | some b => kwargs ++ [("is_todo", .int (if b then 1 else 0))]
    | none => kwargs
  let kwargs := match a.todo_completed with
    | some b => kwargs ++ [("todo_completed", .int (if b then 1 else 0))]
    | none => kwargs
  kwargs

/-- `update_note` of tools/notes.py: build the partial-update kwargs;
issue the backend update only when they are non-empty; always re-fetch
and return the current full note. The result records the update call
that was issued (if any), the final backend state and the returned
Note. -/
def tool_update_note {σ : Type} (B : NoteBackend σ) (st : σ) (note_id : String)
    (a : UpdateNoteArgs) : Option (List (String × FieldValue)) × σ × Note :=
  let kwargs := build_update_kwargs a
  if kwargs.isEmpty then
    (none, st, tool_get_note B st note_id)
  else
    let st2 := B.modify_note st note_id kwargs
    (some kwargs, st2, tool_get_note B st2 note_id)

/-!
Gateway create operations (client.py `create_note`, `create_notebook`,
`create_tag`): each issues the create call, obtains the returned
identifier, and then fetches the resource by that identifier, returning
the fetched fully-populated record rather than the ID-only create
response.
-/

/-- The joppy ClientApi operations the create paths use, over an
abstract backend-state type: each `add` call returns the new state and
the identifier of the created resource (the create response is
ID-only); each `get` call returns the stored full record. -/
structure ClientApi (σ : Type) where
  add_note : σ → List (String × FieldValue) → σ × String
  get_note : σ → String → RawNote
  add_notebook : σ → List (String × FieldValue) → σ × String
  get_notebook : σ → String → RawNotebook
  add_tag : σ → String → σ × String
  get_tag : σ → String → RawTag

namespace JoplinClient

/-- `JoplinClient.create_note`: issue `add_note`, then fetch the created
note by the returned id; the fetched record is the result. -/
def create_note {σ : Type} (api : ClientApi σ) (st : σ)
    (kwargs : List (String × FieldValue)) : σ × RawNote :=
  let r := api.add_note st kwargs
  (r.1, api.get_note r.1 r.2)

/-- `JoplinClient.create_notebook`: issue `add_notebook`, then fetch the
created notebook by the returned id. -/
def create_notebook {σ : Type} (api : ClientApi σ) (st : σ)
    (kwargs : List (String × FieldValue)) : σ × RawNotebook :=
  let r := api.add_notebook st kwargs
  (r.1, api.get_notebook r.1 r.2)

/-- `JoplinClient.create_tag`: issue `add_tag` with the title, then
fetch the created tag by the returned id. -/
def create_tag {σ : Type} (api : ClientApi σ) (st : σ) (title : String) :
    σ × RawTag :=
  let r := api.add_tag st title
  (r.1, api.get_tag r.1 r.2)

end JoplinClient

/-- String lookup in a kwargs list (helper for the store-backed api). -/
def kwargsStr (kwargs : List (String × FieldValue)) (key : String) : String :=
  match kwargs.find? (fun e => e.1 == key) with
  | some (_, .str s) => s
  | _ => ""

/-- A concrete store-backed instantiation of the joppy api for notes:
the store is a list of id-record pairs, `add_note` builds the full
record from the kwargs, stores it under a fresh id and answers with the
id only, `get_note` looks the id up (most recent entry first). -/
def noteStoreApi : ClientApi (List (String × RawNote)) :=
  ⟨fun st kwargs =>
      let newId := "note-" ++ toString st.length
      let record : RawNote :=
        ⟨newId, kwargsStr kwargs "title", kwargsStr kwargs "parent_id",
          some (kwargsStr kwargs "body"), none, none, none, none⟩
      ((newId, record) :: st, newId),
    fun st noteId =>
      match st.find? (fun e => e.1 == noteId) with
      | some e => e.2
      | none => ⟨noteId, "", "", none, none, none, none, none⟩,
    fun st _ => (st, ""),
    fun _ _ => ⟨"", "", none, none, none⟩,
    fun st _ => (st, ""),
    fun _ _ => ⟨"", "", none, none⟩⟩

/-!
Tool host adapter (server.py): every registered tool body is the same
shape, `try: return tool(...) except JoplinMCPError as e: return
_handle_error(e)`. The wrapper is modelled once, generically in the
tool's result type; exceptions outside the taxonomy are not caught and
keep propagating.
-/

/-- The wire-level error payload (models.ErrorResponse). -/
structure ErrorResponse where
  category : String
  message : String
  detail : Option String
deriving DecidableEq, Repr

/-- `_handle_error` of server.py: copy the taxonomy error's category
tag, message and optional detail into an ErrorResponse. -/
def server_handle_error (e : MCPError) : ErrorResponse :=
  ⟨e.category, e.message, e.detail⟩

/-- The value a tool host caller receives: either the Domain Model
value or an ErrorResponse. -/
inductive ToolOutcome (α : Type) where
  | value (a : α)
  | errorResponse (e : ErrorResponse)
deriving DecidableEq, Repr

/-- The try/except wrapper around one tool call: a successful result is
returned as the value; a raised taxonomy error is caught and converted
by `server_handle_error`; any other exception propagates. -/
def tool_wrap {α : Type} (r : Except PyError α) : Except PyError (ToolOutcome α) :=
  match r with
  | .ok a => .ok (.value a)
  | .error (.mcp e) => .ok (.errorResponse (server_handle_error e))
  | .error e => .error e

/-!
Theorems.
-/

/-- A character list contains itself as a trailing run of any longer
list. -/
theorem listIsInfix_append (pat l : List Char) :
    listIsInfix pat (l ++ pat) = true := by
  induction l with
  | nil =>
    cases pat with
    | nil => rfl
    | cons c cs =>
      show ((c :: cs).isPrefixOf (c :: cs) || listIsInfix (c :: cs) cs) = true
      have hp : (c :: cs).isPrefixOf (c :: cs) = true :=
        List.isPrefixOf_iff_prefix.mpr (List.prefix_refl _)
      simp [hp]
  | cons c rest ih =>
    show (pat.isPrefixOf (c :: (rest ++ pat)) || listIsInfix pat (rest ++ pat)) = true
    simp [ih]

/-- A string contains its own suffix appended after anything. -/
theorem strContains_append_right (a b : String) : strContains (a ++ b) b = true := by
  show listIsInfix b.data (a ++ b).data = true
  rw [String.data_append]
  exact listIsInfix_append b.data a.data

/-- C1: the error-translation step classifies every failure in fixed
order with the first match winning: a transport connection failure (or
a "connection refused" message) maps to the connection error; otherwise
a message containing "401", "403" or "unauthorized" maps to the auth
error; otherwise a message containing "404" or "not found" maps to the
not-found error, whose message embeds the operation's resource context
string; any other failure maps to the generic API error with context. -/
theorem handle_error_classifies_in_order
    (host : String) (port : Nat) (isConn : Bool) (excMsg context : String) :
    ((isConn || strContains (pyLower excMsg) "connection refused") = true →
      (JoplinClient.handle_error host port isConn excMsg context).category =
        "connection_error") ∧
    ((isConn || strContains (pyLower excMsg) "connection refused") = false →
      (strContains (pyLower excMsg) "401" || strContains (pyLower excMsg) "403" ||
        strContains (pyLower excMsg) "unauthorized") = true →
      (JoplinClient.handle_error host port isConn excMsg context).category =
        "auth_error") ∧
    ((isConn || strContains (pyLower excMsg) "connection refused") = false →
      (strContains (pyLower excMsg) "401" || strContains (pyLower excMsg) "403" ||
        strContains (pyLower excMsg) "unauthorized") = false →
      (strContains (pyLower excMsg) "404" || strContains (pyLower excMsg) "not found") = true →
      (JoplinClient.handle_error host port isConn excMsg context).category =
          "not_found" ∧
        (context.isEmpty = false →
          strContains (JoplinClient.handle_error host port isConn excMsg context).message
            context = true)) ∧
    ((isConn || strContains (pyLower excMsg) "connection refused") = false →
      (strContains (pyLower excMsg) "401" || strContains (pyLower excMsg) "403" ||
        strContains (pyLower excMsg) "unauthorized") = false →
      (strContains (pyLower excMsg) "404" || strContains (pyLower excMsg) "not found") = false →
      (JoplinClient.handle_error host port isConn excMsg context).category =
          "joplin_error" ∧
        (JoplinClient.handle_error host port isConn excMsg context).detail =
          some excMsg) := by
  refine ⟨fun h1 => ?_, fun h1 h2 => ?_, fun h1 h2 h3 => ?_, fun h1 h2 h3 => ?_⟩
  · simp [JoplinClient.handle_error, h1]
  · simp [JoplinClient.handle_error, h1, h2]
  · refine ⟨by simp [JoplinClient.handle_error, h1, h2, h3], fun hc => ?_⟩
    simp only [JoplinClient.handle_error, h1, h2, h3]
    simp only [Bool.false_eq_true, if_false, if_true]
    rw [if_neg (by simp [hc])]
    exact strContains_append_right "Resource not found: " context
  · simp [JoplinClient.handle_error, h1, h2, h3]

/-- Witness for C1 at a concrete input: the message "404" with context
"note n1" is classified as not_found, with the context embedded in the
message. -/
theorem handle_error_classifies_in_order_witness :
    (JoplinClient.handle_error "localhost" 41184 false "404" "note n1").category =
        "not_found" ∧
      strContains (JoplinClient.handle_error "localhost" 41184 false "404" "note n1").message
        "note n1" = true := by
  have h := (handle_error_classifies_in_order "localhost" 41184 false "404" "note n1").2.2.1
    (by decide) (by decide) (by decide)
  exact ⟨h.1, h.2 (by decide)⟩

/-- Looking a parent up after recording one child: the entry of that
parent grows by the child at the end, every other entry is unchanged. -/
theorem lookupChildren_addChild (m : List (String × List String)) (p c q : String) :
    lookupChildren (addChild m p q) c =
      if c = p then lookupChildren m c ++ [q] else lookupChildren m c := by
  induction m with
  | nil =>
    by_cases hc : c = p
    · subst hc
      simp [addChild, lookupChildren]
    · have hcp : ¬p = c := fun h => hc h.symm
      simp [addChild, lookupChildren, hc, hcp]
  | cons e rest ih =>
    by_cases hep : e.1 = p
    · by_cases hc : c = p
      · subst hc
        simp [addChild, lookupChildren, hep]
      · have hec : ¬e.1 = c := fun h => hc (h.symm.trans hep)
        have hpc : ¬p = c := fun h => hc h.symm
        simp [addChild, lookupChildren, hep, hec, hc, hpc]
    · by_cases hec : e.1 = c
      · have hcp : ¬c = p := fun h => hep (hec.trans h)
        simp [addChild, lookupChildren, hep, hec, hcp]
      · simp [addChild, lookupChildren, hep, hec, ih]

/-- The root-id list produced by the single pass: the already-collected
roots, followed by the ids of exactly those remaining notebooks whose
parent condition fails, in listing order. -/
theorem buildMaps_roots (all : List FlatNotebook) (nbs : List FlatNotebook)
    (acc : List (String × List String) × List String) :
    (buildMaps all nbs acc).2 =
      acc.2 ++ (nbs.filter (fun nb => !isChild all nb)).map FlatNotebook.id := by
  induction nbs generalizing acc with
  | nil => simp [buildMaps]
  | cons nb rest ih =>
    cases hp : nb.parent_id with
    | none =>
      have hchild : isChild all nb = false := by simp [isChild, hp]
      simp only [buildMaps, hp, ih]
      simp [List.filter, hchild]
    | some p =>
      by_cases hcond : (!p.isEmpty && idPresent all p) = true
      · have hchild : isChild all nb = true := by simp [isChild, hp, hcond]
        simp only [buildMaps, hp, if_pos hcond, ih]
        simp [List.filter, hchild]
      · have hchild : isChild all nb = false := by
          simp only [isChild, hp]
          exact Bool.not_eq_true _ ▸ (by simpa using hcond)
        simp only [buildMaps, hp, if_neg hcond, ih]
        simp [List.filter, hchild]

/-- The children map produced by the single pass: under each parent id,
the entries already collected, followed by the ids of exactly those
remaining notebooks recorded under that parent, in listing order. -/
theorem buildMaps_children (all : List FlatNotebook) (nbs : List FlatNotebook)
    (acc : List (String × List String) × List String) (q : String) :
    lookupChildren (buildMaps all nbs acc).1 q =
      lookupChildren acc.1 q ++
        (nbs.filter (fun nb => isChild all nb && nb.parent_id == some q)).map
          FlatNotebook.id := by
  induction nbs generalizing acc with
  | nil => simp [buildMaps]
  | cons nb rest ih =>
    cases hp : nb.parent_id with
    | none =>
      have hsel : (isChild all nb && (nb.parent_id == some q)) = false := by
        simp [isChild, hp]
      simp only [buildMaps, hp, ih]
      simp [List.filter, hsel]
    | some p =>
      by_cases hcond : (!p.isEmpty && idPresent all p) = true
      · have hchild : isChild all nb = true := by simp [isChild, hp, hcond]
        simp only [buildMaps, hp, if_pos hcond, ih]
        rw [lookupChildren_addChild]
        by_cases hqp : q = p
        · subst hqp
          have hsel : (isChild all nb && (nb.parent_id == some q)) = true := by
            simp [hchild, hp]
          simp [List.filter, hsel]
        · have hsel : (isChild all nb && (nb.parent_id == some q)) = false := by
            simp [hchild, hp]
            intro h
            exact hqp h.symm
          simp [List.filter, hsel, hqp]
      · have hchild : isChild all nb = false := by
          simp only [isChild, hp]
          exact Bool.not_eq_true _ ▸ (by simpa using hcond)
        have hsel : (isChild all nb && (nb.parent_id == some q)) = false := by
          simp [hchild]
        simp only [buildMaps, hp, if_neg hcond, ih]
        simp [List.filter, hsel]

/-- C2: the tree pass makes a notebook a root exactly when its parent_id
is absent, empty, or refers to an id outside the fetched set (orphans
are promoted to roots, never dropped), with roots in encountered order;
every non-root is recorded under its parent with siblings in listing
order; and on the flat input a(no parent), b(parent a), c(parent a),
d(parent b) the tree is the single root a with children b (holding d)
and c. -/
theorem get_notebook_tree_builds_forest :
    (∀ (nbs : List FlatNotebook) (nb : FlatNotebook) (p : String),
      nb.parent_id = some p →
        (isChild nbs nb = false ↔ (p = "" ∨ idPresent nbs p = false))) ∧
    (∀ (nbs : List FlatNotebook) (nb : FlatNotebook),
      nb.parent_id = none → isChild nbs nb = false) ∧
    (∀ nbs : List FlatNotebook,
      rootIdsOf nbs = (nbs.filter (fun nb => !isChild nbs nb)).map FlatNotebook.id) ∧
    (∀ (nbs : List FlatNotebook) (nb : FlatNotebook),
      nb ∈ nbs → isChild nbs nb = false → nb.id ∈ rootIdsOf nbs) ∧
    (∀ (nbs : List FlatNotebook) (p : String),
      childrenOf nbs p =
        (nbs.filter (fun nb => isChild nbs nb && nb.parent_id == some p)).map
          FlatNotebook.id) ∧
    (∀ nbs : List FlatNotebook,
      get_notebook_tree nbs =
        (rootIdsOf nbs).map
          (buildTree nbs (buildMaps nbs nbs ([], [])).1 nbs.length)) ∧
    get_notebook_tree
        [⟨"a", "A", none⟩, ⟨"b", "B", some "a"⟩, ⟨"c", "C", some "a"⟩,
          ⟨"d", "D", some "b"⟩] =
      [.mk "a" "A" [.mk "b" "B" [.mk "d" "D" []], .mk "c" "C" []]] := by
  refine ⟨?_, ?_, ?_, ?_, ?_, ?_, ?_⟩
  · intro nbs nb p hp
    constructor
    · intro h
      by_cases hpe : p = ""
      · exact Or.inl hpe
      · right
        have hne : p.isEmpty = false := by
          cases hq : p.isEmpty
          · rfl
          · exact absurd ((String.isEmpty_iff p).mp hq) hpe
        simpa [isChild, hp, hne] using h
    · intro h
      cases h with
      | inl he =>
        have hq : p.isEmpty = true := (String.isEmpty_iff p).mpr he
        simp [isChild, hp, hq]
      | inr hi => simp [isChild, hp, hi]
  · intro nbs nb hp
    simp [isChild, hp]
  · intro nbs
    have h := buildMaps_roots nbs nbs ([], [])
    simpa [rootIdsOf] using h
  · intro nbs nb hmem hroot
    have h := buildMaps_roots nbs nbs ([], [])
    have : nb.id ∈ (nbs.filter (fun nb => !isChild nbs nb)).map FlatNotebook.id := by
      exact List.mem_map_of_mem _ (List.mem_filter.mpr ⟨hmem, by simp [hroot]⟩)
    simpa [rootIdsOf, h] using this
  · intro nbs p
    have h := buildMaps_children nbs nbs ([], []) p
    simpa [childrenOf, lookupChildren] using h
  · intro nbs
    rfl
  · rfl

/-- Witness for C2 at a concrete input: an orphan notebook, whose
parent id is absent from the fetched set, is promoted to a root. -/
theorem get_notebook_tree_builds_forest_witness :
    ("x" : String) ∈ rootIdsOf [⟨"x", "X", some "missing"⟩] := by
  exact get_notebook_tree_builds_forest.2.2.2.1
    [⟨"x", "X", some "missing"⟩] ⟨"x", "X", some "missing"⟩ (by decide) (by decide)

/-- C3: without rawQuery the backend query is the space-join of exactly
the present parts, in the fixed order free text, notebook filter, tag
filter, todo type, completion flag, with the wildcard for an empty
part list. In particular the fully-filtered concrete call issues the
query containing x, notebook:n, tag:t, type:todo, iscompleted:0 in
that relative order, and the call with no arguments issues the
wildcard. -/
theorem search_query_assembled_in_fixed_order :
    (∀ (q nb tg : Option String) (it ic : Option Bool),
      build_search_query q nb tg it ic =
        (let L :=
          (if strTruthy q then [q.getD ""] else []) ++
          (if strTruthy nb then ["notebook:" ++ nb.getD ""] else []) ++
          (if strTruthy tg then ["tag:" ++ tg.getD ""] else []) ++
          (match it with
            | some true => ["type:todo"]
            | some false => ["type:note"]
            | none => []) ++
          (match ic with
            | some true => ["iscompleted:1"]
            | some false => ["iscompleted:0"]
            | none => [])
        if L.isEmpty then "*" else String.intercalate " " L)) ∧
    searchSentQuery (search_notes (fun _ => []) (some "x") (some "n") (some "t")
        (some true) (some false) 50 none) =
      some "x notebook:n tag:t type:todo iscompleted:0" ∧
    searchSentQuery (search_notes (fun _ => []) none none none none none 50 none) =
      some "*" := by
  refine ⟨?_, ?_, ?_⟩
  · intro q nb tg it ic
    rcases it with _ | (_ | _) <;> rcases ic with _ | (_ | _) <;>
      cases hq : strTruthy q <;> cases hnb : strTruthy nb <;>
        cases htg : strTruthy tg <;>
          simp [build_search_query, hq, hnb, htg]
  · rfl
  · rfl

/-- C4: every limit below 1 makes searchNotes, listNotebooks and
listTags fail with ValidationError before any backend call; every limit
above 100 is sent as exactly 100; every limit in range is sent
unchanged. -/
theorem limit_validated_and_clamped :
    (∀ limit : Int, limit < 1 →
      (∀ (backend : SearchCall → List RawNote) (q nb tg : Option String)
          (it ic : Option Bool) (rq : Option String),
        search_notes backend q nb tg it ic limit rq =
          .error (validationError "limit must be at least 1")) ∧
      (∀ backend : ListCall → List RawNotebook,
        list_notebooks backend limit =
          .error (validationError "limit must be at least 1")) ∧
      (∀ backend : ListCall → List RawTag,
        list_tags backend limit =
          .error (validationError "limit must be at least 1"))) ∧
    (∀ limit : Int, limit > 100 →
      (∀ (backend : SearchCall → List RawNote) (q nb tg : Option String)
          (it ic : Option Bool) (rq : Option String),
        searchSentLimit (search_notes backend q nb tg it ic limit rq) = some 100) ∧
      (∀ backend : ListCall → List RawNotebook,
        listSentLimit (list_notebooks backend limit) = some 100) ∧
      (∀ backend : ListCall → List RawTag,
        listSentLimit (list_tags backend limit) = some 100)) ∧
    (∀ limit : Int, 1 ≤ limit → limit ≤ 100 →
      (∀ (backend : SearchCall → List RawNote) (q nb tg : Option String)
          (it ic : Option Bool) (rq : Option String),
        searchSentLimit (search_notes backend q nb tg it ic limit rq) = some limit) ∧
      (∀ backend : ListCall → List RawNotebook,
        listSentLimit (list_notebooks backend limit) = some limit) ∧
      (∀ backend : ListCall → List RawTag,
        listSentLimit (list_tags backend limit) = some limit)) := by
  refine ⟨?_, ?_, ?_⟩
  · intro limit h
    refine ⟨fun backend q nb tg it ic rq => ?_, fun backend => ?_, fun backend => ?_⟩
    · simp [search_notes, h]
    · simp [list_notebooks, h]
    · simp [list_tags, h]
  · intro limit h
    have h1 : ¬limit < 1 := by omega
    refine ⟨fun backend q nb tg it ic rq => ?_, fun backend => ?_, fun backend => ?_⟩
    · simp [search_notes, searchSentLimit, h1, h]
    · simp [list_notebooks, listSentLimit, h1, h]
    · simp [list_tags, listSentLimit, h1, h]
  · intro limit hlo hhi
    have h1 : ¬limit < 1 := by omega
    have h2 : ¬limit > 100 := by omega
    refine ⟨fun backend q nb tg it ic rq => ?_, fun backend => ?_, fun backend => ?_⟩
    · simp [search_notes, searchSentLimit, h1, h2]
    · simp [list_notebooks, listSentLimit, h1, h2]
    · simp [list_tags, listSentLimit, h1, h2]

/-- Witness for C4 at concrete limits: 0 is rejected, 150 is clamped to
100, 50 is sent unchanged. -/
theorem limit_validated_and_clamped_witness :
    list_notebooks (fun _ => []) 0 =
        .error (validationError "limit must be at least 1") ∧
      listSentLimit (list_tags (fun _ => []) 150) = some 100 ∧
      searchSentLimit (search_notes (fun _ => []) none none none none none 50 none) =
        some 50 := by
  refine ⟨?_, ?_, ?_⟩
  · exact (limit_validated_and_clamped.1 0 (by norm_num)).2.1 (fun _ => [])
  · exact (limit_validated_and_clamped.2.1 150 (by norm_num)).2.2 (fun _ => [])
  · exact (limit_validated_and_clamped.2.2 50 (by norm_num) (by norm_num)).1
      (fun _ => []) none none none none none none

/-- C5 counterexample: with the token variable unset, `get_config`
raises the builtin `ValueError`, which is not a member of the error
taxonomy (errors.py defines no ConfigError class at all, and its
category list does not cover this failure). -/
theorem get_config_raises_builtin_valueerror :
    get_config none ⟨none, none, none⟩ =
        .error (.valueError
          ("JOPLIN_API_TOKEN environment variable is required. " ++
            "Get your token from Joplin: Tools > Options > Web Clipper")) ∧
      PyError.isTaxonomy
        (.valueError
          ("JOPLIN_API_TOKEN environment variable is required. " ++
            "Get your token from Joplin: Tools > Options > Web Clipper")) = false :=
  ⟨rfl, rfl⟩

/-- C5 amended: `get_config` fails with the builtin ValueError (not a
taxonomy error) when the token is missing/empty or when the port
variable does not parse as an integer; on success it returns a Config
with host defaulting to "localhost" and port defaulting to 41184; a
cached config is returned unchanged for the rest of the process
lifetime. -/
theorem get_config_valueerror_and_defaults :
    (∀ env : Env, strTruthy env.joplin_api_token = false →
      get_config none env =
        .error (.valueError
          ("JOPLIN_API_TOKEN environment variable is required. " ++
            "Get your token from Joplin: Tools > Options > Web Clipper")) ∧
        ∀ e : MCPError, get_config none env ≠ .error (.mcp e)) ∧
    (∀ (env : Env) (s : String), strTruthy env.joplin_api_token = true →
      env.joplin_port = some s → pyParseInt s = none →
      get_config none env =
        .error (.valueError ("JOPLIN_PORT must be a valid integer, got: " ++ s)) ∧
        ∀ e : MCPError, get_config none env ≠ .error (.mcp e)) ∧
    (∀ t : String, t ≠ "" →
      get_config none ⟨some t, none, none⟩ = .ok ⟨t, "localhost", 41184⟩) ∧
    (∀ (c : Config) (env : Env), get_config (some c) env = .ok c) := by
  refine ⟨?_, ?_, ?_, ?_⟩
  · intro env h
    constructor
    · simp [get_config, h]
    · intro e
      simp [get_config, h]
  · intro env s htok hport hparse
    constructor
    · simp [get_config, htok, hport, hparse]
    · intro e
      simp [get_config, htok, hport, hparse]
  · intro t ht
    have h : strTruthy (some t) = true := by
      simp [strTruthy]
      cases he : t.isEmpty
      · rfl
      · exact absurd ((String.isEmpty_iff t).mp he) ht
    simp [get_config, h]
    rfl
  · intro c env
    rfl

/-- Witness for C5 amended at concrete inputs: a set token with no host
or port yields the default Config; a non-numeric port fails with the
builtin error. -/
theorem get_config_valueerror_and_defaults_witness :
    get_config none ⟨some "tok", none, none⟩ = .ok ⟨"tok", "localhost", 41184⟩ ∧
      get_config none ⟨some "tok", none, some "abc"⟩ =
        .error (.valueError "JOPLIN_PORT must be a valid integer, got: abc") := by
  constructor
  · exact get_config_valueerror_and_defaults.2.2.1 "tok" (by decide)
  · exact (get_config_valueerror_and_defaults.2.1 ⟨some "tok", none, some "abc"⟩
      "abc" (by decide) rfl (by decide)).1

/-- A trivial note backend over a unit state, used to exercise the
update path at a concrete input. -/
def unitNoteBackend : NoteBackend Unit :=
  ⟨fun _ i => ⟨i, "", "", none, none, none, none, none⟩,
    fun _ _ => [],
    fun _ _ _ => ()⟩

/-- C6: the partial-update map of updateNote holds exactly the
explicitly provided non-null fields in source order with booleans
encoded as 1/0; it is empty exactly when every optional field is null;
with every field null no backend update is issued, the backend state is
untouched and the re-fetched current note is returned; with a non-empty
map the update is issued with exactly that map and the note is
re-fetched from the updated state. -/
theorem update_note_partial_update :
    (∀ a : UpdateNoteArgs,
      build_update_kwargs a =
        (match a.title with
          | some t => [("title", FieldValue.str t)]
          | none => []) ++
        (match a.body with
          | some b => [("body", FieldValue.str b)]
          | none => []) ++
        (match a.notebook_id with
          | some nb => [("parent_id", FieldValue.str nb)]
          | none => []) ++
        (match a.is_todo with
          | some b => [("is_todo", FieldValue.int (if b then 1 else 0))]
          | none => []) ++
        (match a.todo_completed with
          | some b => [("todo_completed", FieldValue.int (if b then 1 else 0))]
          | none => [])) ∧
    (∀ a : UpdateNoteArgs, build_update_kwargs a = [] ↔ a = UpdateNoteArgs.empty) ∧
    (∀ (σ : Type) (B : NoteBackend σ) (st : σ) (note_id : String),
      tool_update_note B st note_id UpdateNoteArgs.empty =
        (none, st, tool_get_note B st note_id)) ∧
    (∀ (σ : Type) (B : NoteBackend σ) (st : σ) (note_id : String)
        (a : UpdateNoteArgs),
      build_update_kwargs a ≠ [] →
        tool_update_note B st note_id a =
          (some (build_update_kwargs a),
            B.modify_note st note_id (build_update_kwargs a),
            tool_get_note B (B.modify_note st note_id (build_update_kwargs a))
              note_id)) := by
  refine ⟨?_, ?_, ?_, ?_⟩
  · intro a
    rcases a with ⟨t, b, nb, it, tc⟩
    rcases t with _ | t <;> rcases b with _ | b <;> rcases nb with _ | nb <;>
      rcases it with _ | it <;> rcases tc with _ | tc <;>
        simp [build_update_kwargs]
  · intro a
    rcases a with ⟨t, b, nb, it, tc⟩
    rcases t with _ | t <;> rcases b with _ | b <;> rcases nb with _ | nb <;>
      rcases it with _ | it <;> rcases tc with _ | tc <;>
        simp [build_update_kwargs, UpdateNoteArgs.empty]
  · intro σ B st note_id
    rfl
  · intro σ B st note_id a h
    have hne : (build_update_kwargs a).isEmpty = false := by
      cases he : (build_update_kwargs a).isEmpty
      · rfl
      · exact absurd (List.isEmpty_iff.mp he) h
    simp [tool_update_note, hne]

/-- Witness for C6 at a concrete input: updating only the title issues
the backend update with exactly that one field and re-fetches. -/
theorem update_note_partial_update_witness :
    tool_update_note unitNoteBackend () "n1" ⟨some "T", none, none, none, none⟩ =
      (some [("title", FieldValue.str "T")], (),
        tool_get_note unitNoteBackend () "n1") := by
  have h := update_note_partial_update.2.2.2 Unit unitNoteBackend () "n1"
    ⟨some "T", none, none, none, none⟩ (by decide)
  simpa using h

/-- C7: each gateway create operation issues the create call, obtains
the returned identifier, and returns the result of fetching the
resource by that identifier; on a store-backed api whose create
response is ID-only, the returned value is the stored fully-populated
record built from the create arguments, not the identifier-only
response. -/
theorem create_then_refetch :
    (∀ (σ : Type) (api : ClientApi σ) (st : σ)
        (kwargs : List (String × FieldValue)),
      JoplinClient.create_note api st kwargs =
        ((api.add_note st kwargs).1,
          api.get_note (api.add_note st kwargs).1 (api.add_note st kwargs).2)) ∧
    (∀ (σ : Type) (api : ClientApi σ) (st : σ)
        (kwargs : List (String × FieldValue)),
      JoplinClient.create_notebook api st kwargs =
        ((api.add_notebook st kwargs).1,
          api.get_notebook (api.add_notebook st kwargs).1
            (api.add_notebook st kwargs).2)) ∧
    (∀ (σ : Type) (api : ClientApi σ) (st : σ) (title : String),
      JoplinClient.create_tag api st title =
        ((api.add_tag st title).1,
          api.get_tag (api.add_tag st title).1 (api.add_tag st title).2)) ∧
    (∀ (st : List (String × RawNote)) (kwargs : List (String × FieldValue)),
      (JoplinClient.create_note noteStoreApi st kwargs).2 =
        ⟨"note-" ++ toString st.length, kwargsStr kwargs "title",
          kwargsStr kwargs "parent_id", some (kwargsStr kwargs "body"),
          none, none, none, none⟩) := by
  refine ⟨fun σ api st kwargs => rfl, fun σ api st kwargs => rfl,
    fun σ api st title => rfl, ?_⟩
  intro st kwargs
  simp [JoplinClient.create_note, noteStoreApi, List.find?]

/-- C8: the tool host wrapper turns every raised taxonomy error into an
ErrorResponse carrying that error's category tag, message and detail,
and passes successful values through, so a tool whose failures are all
taxonomy errors always hands its caller a value, distinguished by the
error shape. -/
theorem tool_host_wraps_taxonomy_errors :
    (∀ (α : Type) (e : MCPError),
      @tool_wrap α (.error (.mcp e)) =
        .ok (.errorResponse ⟨e.category, e.message, e.detail⟩)) ∧
    (∀ (α : Type) (a : α), tool_wrap (.ok a) = .ok (.value a)) ∧
    (∀ (α : Type) (r : Except PyError α),
      (∀ pe : PyError, r = .error pe → pe.isTaxonomy = true) →
        ∃ out : ToolOutcome α, tool_wrap r = .ok out) := by
  refine ⟨fun α e => rfl, fun α a => rfl, ?_⟩
  intro α r h
  cases r with
  | ok a => exact ⟨.value a, rfl⟩
  | error pe =>
    cases pe with
    | valueError m => exact absurd (h (.valueError m) rfl) (by simp [PyError.isTaxonomy])
    | mcp e => exact ⟨.errorResponse (server_handle_error e), rfl⟩

/-- Witness for C8 at a concrete input: a raised ValidationError
reaches the caller as an ErrorResponse value with its category tag and
message. -/
theorem tool_host_wraps_taxonomy_errors_witness :
    ∃ out : ToolOutcome Nat,
      @tool_wrap Nat
        (.error (.mcp (validationError "limit must be at least 1"))) = .ok out := by
  exact tool_host_wraps_taxonomy_errors.2.2 Nat
    (.error (.mcp (validationError "limit must be at least 1")))
    (fun pe h => by cases h; rfl)

/-- The snippet of one raw note is the first 500 characters of its
defaulted body (the whole body when not longer than 500). -/
theorem note_to_snippet_data (n : RawNote) :
    (note_to_snippet n).snippet.data = (n.body.getD "").data.take 500 := by
  show (if (n.body.getD "").length > 500
      then String.mk ((n.body.getD "").data.take 500)
      else n.body.getD "").data = (n.body.getD "").data.take 500
  by_cases h : (n.body.getD "").length > 500
  · simp [h]
  · have hlen : (n.body.getD "").data.length ≤ 500 := by
      have h2 : (n.body.getD "").length ≤ 500 := by omega
      exact h2
    simp [h, List.take_of_length_le hlen]

/-- The snippet length of one raw note is the minimum of 500 and the
defaulted body length. -/
theorem note_to_snippet_length (n : RawNote) :
    (note_to_snippet n).snippet.length = min 500 (n.body.getD "").length := by
  have h := note_to_snippet_data n
  show (note_to_snippet n).snippet.data.length = min 500 (n.body.getD "").data.length
  rw [h, List.length_take]

/-- C9: for every note returned by searchNotes, the snippet is the
first 500 characters of the body when the body is longer than 500 and
the whole body otherwise (its length is the minimum of 500 and the body
length; a missing body yields the empty snippet), the result list being
the per-note conversion of the backend results; in particular a
1000-character body yields a snippet of exactly 500 characters. -/
theorem search_snippet_truncation :
    (∀ n : RawNote,
      (note_to_snippet n).snippet.data = (n.body.getD "").data.take 500) ∧
    (∀ n : RawNote,
      (note_to_snippet n).snippet.length = min 500 (n.body.getD "").length) ∧
    (∀ n : RawNote, n.body = none → (note_to_snippet n).snippet = "") ∧
    (∀ (backend : SearchCall → List RawNote) (q nb tg : Option String)
        (it ic : Option Bool) (limit : Int) (rq : Option String)
        (call : SearchCall) (snips : List NoteSnippet),
      search_notes backend q nb tg it ic limit rq = .ok (call, snips) →
        snips = (backend call).map note_to_snippet) ∧
    (note_to_snippet
        ⟨"i", "t", "p", some (String.mk (List.replicate 1000 'a')),
          none, none, none, none⟩).snippet.length = 500 := by
  refine ⟨note_to_snippet_data, note_to_snippet_length, ?_, ?_, ?_⟩
  · intro n h
    have hd := note_to_snippet_data n
    rw [h] at hd
    exact String.ext hd
  · intro backend q nb tg it ic limit rq call snips h
    by_cases hl : limit < 1
    · simp [search_notes, hl] at h
    · simp only [search_notes, if_neg hl, Except.ok.injEq, Prod.mk.injEq] at h
      rcases h with ⟨hcall, hsnips⟩
      rw [← hsnips, hcall]
  · rw [note_to_snippet_length]
    rw [show ((some (String.mk (List.replicate 1000 'a'))).getD "") =
        String.mk (List.replicate 1000 'a') from rfl]
    rw [String.length_mk, List.length_replicate]
    omega

/-- Witness for C9 at a concrete input: a run of searchNotes over a
one-note backend returns exactly the converted note. -/
theorem search_snippet_truncation_witness :
    [note_to_snippet ⟨"i", "t", "p", some "hello", none, none, none, none⟩] =
      ((fun _ : SearchCall =>
          [(⟨"i", "t", "p", some "hello", none, none, none, none⟩ : RawNote)])
        (SearchCall.mk "*" 50 searchNotesFields)).map note_to_snippet := by
  exact search_snippet_truncation.2.2.2.1
    (fun _ => [⟨"i", "t", "p", some "hello", none, none, none, none⟩])
    none none none none none 50 none ⟨"*", 50, searchNotesFields⟩
    [note_to_snippet ⟨"i", "t", "p", some "hello", none, none, none, none⟩] rfl

/-- C10: an empty-string argument to searchNotes behaves exactly like a
null one: an empty raw_query does not override the assembled query, and
empty query, notebook and tag arguments contribute no term; with
everything empty or absent the issued query is the wildcard. -/
theorem empty_string_args_behave_as_null :
    (∀ (backend : SearchCall → List RawNote) (q nb tg : Option String)
        (it ic : Option Bool) (limit : Int),
      search_notes backend q nb tg it ic limit (some "") =
        search_notes backend q nb tg it ic limit none) ∧
    (∀ (nb tg : Option String) (it ic : Option Bool),
      build_search_query (some "") nb tg it ic =
        build_search_query none nb tg it ic) ∧
    (∀ (q tg : Option String) (it ic : Option Bool),
      build_search_query q (some "") tg it ic =
        build_search_query q none tg it ic) ∧
    (∀ (q nb : Option String) (it ic : Option Bool),
      build_search_query q nb (some "") it ic =
        build_search_query q nb none it ic) ∧
    searchSentQuery
        (search_notes (fun _ => []) (some "") (some "") (some "") none none 50
          (some "")) =
      some "*" := by
  exact ⟨fun backend q nb tg it ic limit => rfl, fun nb tg it ic => rfl,
    fun q tg it ic => rfl, fun q nb it ic => rfl, rfl⟩
